import Mathlib

/-!
Verification model of the web-automation agent
(`src/webautomationagent.py`): the DOM simplifier, the planner adapter,
the scrape item extraction with link resolution, and the bounded
observe-plan-act control loop of `WebAgent.run`.
-/

set_option maxHeartbeats 1000000

namespace WebAgentModel

/-! ## DOM node model

Model of a rendered DOM element as seen by the link-resolution script
passed to `el.evaluate` in `WebAgent.run` (lines 208-213).  A node
carries its uppercase `tagName`, its resolved `href` property and its
child nodes in document order.  The position of an element in the page
is the element itself together with its chain of ancestors, nearest
first. -/

inductive Node where
  | mk (tag : String) (href : String) (children : List Node)

def Node.tag : Node → String
  | .mk t _ _ => t

def Node.href : Node → String
  | .mk _ h _ => h

def Node.children : Node → List Node
  | .mk _ _ c => c

/-- First anchor (`tagName === 'A'`) in a forest, searched in document
order: a node is visited before its children, children before later
siblings.  This is the order `el.querySelector('a')` searches the
descendants of `el`. -/
def firstAnchorIn : List Node → Option Node
  | [] => none
  | Node.mk t h c :: rest =>
    if t = "A" then some (Node.mk t h c)
    else
      match firstAnchorIn c with
      | some a => some a
      | none => firstAnchorIn rest

/-- `el.closest('a')`: the nearest node among `el` itself and its
ancestors (nearest first) whose tag is an anchor. -/
def closestAnchor (el : Node) (ancestors : List Node) : Option Node :=
  if el.tag = "A" then some el
  else ancestors.find? (fun a => a.tag = "A")

/-- The link-resolution script passed to `el.evaluate` in
`WebAgent.run` (lines 208-213), clause for clause:
`if (el.tagName === 'A') return el.href;`
`if (el.closest('a')) return el.closest('a').href;`
`const child = el.querySelector('a'); return child ? child.href : null;` -/
def linkEval (el : Node) (ancestors : List Node) : Option String :=
  if el.tag = "A" then some el.href
  else
    match closestAnchor el ancestors with
    | some a => some a.href
    | none =>
      match firstAnchorIn el.children with
      | some child => some child.href
      | none => none

/-- Modelled from the spec wording of the link-resolution order, for
comparison with `linkEval`: element itself is a link → its own href;
otherwise its nearest enclosing link ancestor → that href; otherwise
its first descendant link → that href; otherwise null. -/
def linkSpecOrder (el : Node) (ancestors : List Node) : Option String :=
  if el.tag = "A" then some el.href
  else
    match ancestors.find? (fun a => a.tag = "A") with
    | some ancestorLink => some ancestorLink.href
    | none => (firstAnchorIn el.children).map Node.href

/-! ## Markup simplifier (`DOMSimplifier.simplify`, lines 31-45)

The Python works on the tree BeautifulSoup parses out of the markup
string; parsing and `prettify` serialization are library code, so the
model works directly on the parsed tree.  A parsed document is a
forest of nodes; an element node carries its (lowercased) tag, its
attribute list and its children, and a text node carries its string. -/

inductive Html where
  | element (tag : String) (attrs : List (String × String)) (children : List Html)
  | text (s : String)

/-- The tag list decomposed by `simplify`:
`soup(["script", "style", "svg", "path", "head", "meta", "noscript", "footer"])`. -/
def EXCLUDED_TAGS : List String :=
  ["script", "style", "svg", "path", "head", "meta", "noscript", "footer"]

/-- The attribute allow-list kept by `simplify`:
`allowed_attrs = ['id', 'name', 'class', 'href', 'type', 'placeholder', 'aria-label', 'role']`. -/
def ALLOWED_ATTRS : List String :=
  ["id", "name", "class", "href", "type", "placeholder", "aria-label", "role"]

mutual

/-- `element.decompose()` applied to every element whose tag is in
`EXCLUDED_TAGS`: the whole subtree rooted at such an element is
removed; other nodes keep their (recursively stripped) children. -/
def stripTree : Html → Option Html
  | .text s => some (.text s)
  | .element t a c =>
    if EXCLUDED_TAGS.contains t then none
    else some (.element t a (stripForest c))

def stripForest : List Html → List Html
  | [] => []
  | h :: rest =>
    match stripTree h with
    | some h2 => h2 :: stripForest rest
    | none => stripForest rest

end

mutual

/-- `tag.attrs = {k: v for k, v in tag.attrs.items() if k in allowed_attrs}`
applied to every remaining element (`soup.find_all(True)`). -/
def keepAllowedAttrs : Html → Html
  | .text s => .text s
  | .element t a c =>
    .element t (a.filter (fun kv => ALLOWED_ATTRS.contains kv.fst)) (keepAllowedAttrsForest c)

def keepAllowedAttrsForest : List Html → List Html
  | [] => []
  | h :: rest => keepAllowedAttrs h :: keepAllowedAttrsForest rest

end

/-- `DOMSimplifier.simplify` on the parsed document: decompose the
excluded subtrees, then restrict every remaining element to the
allow-listed attributes (serialization via `prettify` is outside the
model). -/
def simplify (doc : List Html) : List Html :=
  keepAllowedAttrsForest (stripForest doc)

mutual

/-- Whether a tree contains (at any depth, itself included) an element
whose tag is one of the excluded tag categories. -/
def containsExcluded : Html → Bool
  | .text _ => false
  | .element t _ c => EXCLUDED_TAGS.contains t || containsExcludedForest c

def containsExcludedForest : List Html → Bool
  | [] => false
  | h :: rest => containsExcluded h || containsExcludedForest rest

end

mutual

/-- Whether every element of a tree (at any depth) carries only
allow-listed attributes. -/
def attrsAllowed : Html → Bool
  | .text _ => true
  | .element _ a c =>
    a.all (fun kv => ALLOWED_ATTRS.contains kv.fst) && attrsAllowedForest c

def attrsAllowedForest : List Html → Bool
  | [] => true
  | h :: rest => attrsAllowed h && attrsAllowedForest rest

end

/-! ## Scrape extraction (`WebAgent.run`, lines 199-219)

A matched element as the scrape loop sees it: its position in the DOM
(the node and its ancestor chain, nearest first) and the rendered
`inner_text()` playwright reports for it. -/

structure ScrapeEl where
  el : Node
  ancestors : List Node
  innerText : String

/-- Python's `str.strip()`: drop whitespace characters from both ends
of the string. -/
def pyStrip (s : String) : String :=
  String.mk (((s.data.dropWhile Char.isWhitespace).reverse.dropWhile Char.isWhitespace).reverse)

/-- One record of scraped output: `{"text": text.strip(), "link": link}`. -/
structure ScrapedItem where
  text : String
  link : Option String
deriving DecidableEq, Repr

/-- The `for el in elements` loop of the scrape branch: for each
matched element take `inner_text` and the evaluated link, and keep the
record only when `text.strip()` is truthy, i.e. nonempty. -/
def scrapeItems : List ScrapeEl → List ScrapedItem
  | [] => []
  | e :: rest =>
    if pyStrip e.innerText ≠ "" then
      { text := pyStrip e.innerText, link := linkEval e.el e.ancestors } :: scrapeItems rest
    else scrapeItems rest

/-! ## Planner adapter (`AgentPlanner.get_next_action`, lines 64-101)

The JSON object returned by the reasoning service is read with
`plan.get(...)` for each of the four keys, so each field is optional. -/

structure Plan where
  thought : Option String
  action : Option String
  selector : Option String
  value : Option String
deriving DecidableEq, Repr

/-- The degraded plan returned by the `except` clause:
`{"action": "finish", "thought": "API call failed."}`. -/
def degradedPlan : Plan :=
  { thought := some "API call failed.", action := some "finish",
    selector := none, value := none }

/-- `AgentPlanner.get_next_action` seen from the control loop: the
`try` block either produces the parsed plan or raises (network error
from `generate_content_async`, or `json.loads` failing on the response
text); the `except Exception` clause turns any raise into the degraded
plan, so the function never raises to the caller. -/
def get_next_action (callResult : Except String Plan) : Plan :=
  match callResult with
  | .ok plan => plan
  | .error _ => degradedPlan

/-! ## Control loop (`WebAgent.run`, lines 145-244) -/

/-- Python string interpolation of a value read with `.get`: `None`
prints as the string `None`. -/
def pyStr : Option String → String
  | none => "None"
  | some s => s

def sq : String := "\x27"

def typedMsg (value selector : Option String) : String :=
  "Typed " ++ sq ++ pyStr value ++ sq ++ " into " ++ pyStr selector

def clickedMsg (selector : Option String) : String :=
  "Clicked " ++ pyStr selector

def scrapedMsg (selector : Option String) : String :=
  "Scraped data from " ++ pyStr selector

def warnMsg (selector : Option String) : String :=
  "WARNING: Scraped 0 items using " ++ pyStr selector ++ ". Try a different selector."

def failMsg (action : String) (selector : Option String) (err : String) : String :=
  "Failed to execute " ++ action ++ " on " ++ pyStr selector ++ ": " ++ err

/-- One `{"step": step, "data": data}` record of `collected_data`. -/
structure CollectedRecord where
  step : Nat
  data : List ScrapedItem
deriving DecidableEq, Repr

/-- The session state owned by `WebAgent`: `self.history` and
`self.collected_data`. -/
structure AgentState where
  history : List String
  collectedData : List CollectedRecord
deriving DecidableEq, Repr

/-- A page mutation performed by the action executor:
`page.fill(selector, value)` or `page.click(selector)`.  Waits and
reads (`wait_for_selector`, `query_selector_all`, `inner_text`,
`evaluate`) mutate nothing and are not effects. -/
inductive Effect where
  | fill (selector : String) (value : String)
  | click (selector : String)
deriving DecidableEq, Repr

/-- How one iteration of the `for step in range(MAX_STEPS)` loop ends:
fall through to the next iteration; `break` out at a finish signal;
`break` out because the Observe phase raised; or raise an uncaught
exception (`action.upper()` on a plan without an `action` key), which
leaves the loop through the `finally` block. -/
inductive StepOutcome where
  | next
  | breakFinished
  | breakObserve
  | crash
deriving DecidableEq, Repr

structure StepResult where
  state : AgentState
  effects : List Effect
  outcome : StepOutcome
deriving DecidableEq, Repr

/-- The per-step behaviour of the external world, fixed by the
environment rather than the agent: whether `page.content()` succeeds,
what the reasoning call produces, whether the playwright interaction
of the Act phase raises (with `str(e)` when it does), and the elements
`query_selector_all` matches for a scrape. -/
structure StepEnv where
  observeOk : Bool
  planResult : Except String Plan
  actOk : Bool
  errText : String
  elements : List ScrapeEl

/-- One iteration of the main loop body (lines 148-244): Observe
(`try`/`except` around `page.content()`, `break` on failure), Plan
(`get_next_action`), the unguarded `action.upper()` print (raises when
the plan has no `action`), then the Act `try` block dispatching on the
action string, with any raise caught and appended to history. -/
def runStep (step : Nat) (env : StepEnv) (s : AgentState) : StepResult :=
  if env.observeOk = false then
    { state := s, effects := [], outcome := .breakObserve }
  else
    let plan := get_next_action env.planResult
    match plan.action with
    | none => { state := s, effects := [], outcome := .crash }
    | some action =>
      if action = "type" then
        if env.actOk then
          { state := { s with history := s.history ++ [typedMsg plan.value plan.selector] },
            effects := [.fill (pyStr plan.selector) (pyStr plan.value)],
            outcome := .next }
        else
          { state := { s with history := s.history ++ [failMsg action plan.selector env.errText] },
            effects := [], outcome := .next }
      else if action = "click" then
        if env.actOk then
          { state := { s with history := s.history ++ [clickedMsg plan.selector] },
            effects := [.click (pyStr plan.selector)],
            outcome := .next }
        else
          { state := { s with history := s.history ++ [failMsg action plan.selector env.errText] },
            effects := [], outcome := .next }
      else if action = "scrape" then
        if env.actOk then
          let data := scrapeItems env.elements
          let s1 : AgentState :=
            { history := s.history ++ [scrapedMsg plan.selector],
              collectedData := s.collectedData ++ [{ step := step, data := data }] }
          if plan.value = some "finish" then
            { state := s1, effects := [], outcome := .breakFinished }
          else if data.length = 0 then
            { state := { s1 with history := s1.history ++ [warnMsg plan.selector] },
              effects := [], outcome := .next }
          else
            { state := s1, effects := [], outcome := .next }
        else
          { state := { s with history := s.history ++ [failMsg action plan.selector env.errText] },
            effects := [], outcome := .next }
      else if action = "finish" then
        { state := s, effects := [], outcome := .breakFinished }
      else
        { state := s, effects := [], outcome := .next }

/-- How the whole loop exits: a finish `break`, the step budget
running out, the Observe `break`, or the uncaught exception. -/
inductive ExitKind where
  | finished
  | stepsExhausted
  | aborted
  | crashed
deriving DecidableEq, Repr

structure RunResult where
  state : AgentState
  steps : List Nat
  effects : List Effect
  exit : ExitKind
deriving DecidableEq, Repr

/-- The `for step in range(MAX_STEPS)` loop, with the remaining
iteration budget as fuel and `step` the index of the next iteration.
`steps` records the indices of the iterations that began. -/
def runLoop (envs : Nat → StepEnv) : Nat → Nat → AgentState → RunResult
  | 0, _, s => { state := s, steps := [], effects := [], exit := .stepsExhausted }
  | fuel + 1, step, s =>
    let r := runStep step (envs step) s
    match r.outcome with
    | .next =>
      let rest := runLoop envs fuel (step + 1) r.state
      { state := rest.state, steps := step :: rest.steps,
        effects := r.effects ++ rest.effects, exit := rest.exit }
    | .breakFinished =>
      { state := r.state, steps := [step], effects := r.effects, exit := .finished }
    | .breakObserve =>
      { state := r.state, steps := [step], effects := r.effects, exit := .aborted }
    | .crash =>
      { state := r.state, steps := [step], effects := r.effects, exit := .crashed }

/-- A whole run of `WebAgent.run`: the loop from step 0 with the
session state fresh (`self.history = []`, `self.collected_data = []`)
and the budget `MAX_STEPS`. -/
def run (maxSteps : Nat) (envs : Nat → StepEnv) : RunResult :=
  runLoop envs maxSteps 0 { history := [], collectedData := [] }

/-! ## Lemmas about the simplifier -/

mutual

theorem stripTree_no_excluded : ∀ h h2, stripTree h = some h2 → containsExcluded h2 = false
  | .text s, h2, heq => by
    simp only [stripTree, Option.some.injEq] at heq
    subst heq
    simp [containsExcluded]
  | .element t a c, h2, heq => by
    cases ht : EXCLUDED_TAGS.contains t with
    | true =>
      simp only [stripTree] at heq
      rw [ht] at heq
      simp at heq
    | false =>
      simp only [stripTree, ht, Bool.false_eq_true, if_false, Option.some.injEq] at heq
      subst heq
      simp only [containsExcluded, ht, Bool.false_or]
      exact stripForest_no_excluded c

theorem stripForest_no_excluded : ∀ l, containsExcludedForest (stripForest l) = false
  | [] => by simp [stripForest, containsExcludedForest]
  | h :: rest => by
    cases hs : stripTree h with
    | none =>
      simp only [stripForest, hs]
      exact stripForest_no_excluded rest
    | some h2 =>
      simp only [stripForest, hs, containsExcludedForest]
      rw [stripTree_no_excluded h h2 hs, stripForest_no_excluded rest]
      rfl

end

mutual

theorem keepAttrs_containsExcluded : ∀ h, containsExcluded (keepAllowedAttrs h) = containsExcluded h
  | .text s => by simp [keepAllowedAttrs]
  | .element t a c => by
    simp only [keepAllowedAttrs, containsExcluded]
    rw [keepAttrsForest_containsExcluded c]

theorem keepAttrsForest_containsExcluded :
    ∀ l, containsExcludedForest (keepAllowedAttrsForest l) = containsExcludedForest l
  | [] => by simp [keepAllowedAttrsForest]
  | h :: rest => by
    simp only [keepAllowedAttrsForest, containsExcludedForest]
    rw [keepAttrs_containsExcluded h, keepAttrsForest_containsExcluded rest]

end

theorem filter_attrs_all_allowed (a : List (String × String)) :
    (a.filter (fun kv => ALLOWED_ATTRS.contains kv.fst)).all
      (fun kv => ALLOWED_ATTRS.contains kv.fst) = true := by
  simp only [List.all_eq_true, List.mem_filter]
  intro kv hkv
  exact hkv.2

mutual

theorem keepAttrs_allowed : ∀ h, attrsAllowed (keepAllowedAttrs h) = true
  | .text s => by simp [keepAllowedAttrs, attrsAllowed]
  | .element t a c => by
    simp only [keepAllowedAttrs, attrsAllowed, Bool.and_eq_true]
    exact ⟨filter_attrs_all_allowed a, keepAttrsForest_allowed c⟩

theorem keepAttrsForest_allowed : ∀ l, attrsAllowedForest (keepAllowedAttrsForest l) = true
  | [] => by simp [keepAllowedAttrsForest, attrsAllowedForest]
  | h :: rest => by
    simp only [keepAllowedAttrsForest, attrsAllowedForest, Bool.and_eq_true]
    exact ⟨keepAttrs_allowed h, keepAttrsForest_allowed rest⟩

end

/-- C8: for every parsed input document, the output of `simplify`
contains no element of the excluded tag categories (script, style,
svg, path, head, meta, noscript, footer), and every attribute of every
retained element belongs to the allow-list {id, name, class, href,
type, placeholder, aria-label, role}. -/
theorem simplify_no_excluded_and_allowlisted (doc : List Html) :
    containsExcludedForest (simplify doc) = false ∧
      attrsAllowedForest (simplify doc) = true := by
  unfold simplify
  constructor
  · rw [keepAttrsForest_containsExcluded]
    exact stripForest_no_excluded doc
  · exact keepAttrsForest_allowed (stripForest doc)

/-- C10: the link field of a scraped element is resolved in this
order: the element itself is a link → its own href; otherwise its
nearest enclosing link ancestor → that ancestor's href; otherwise its
first descendant link → that descendant's href; otherwise null.  The
script's `el.closest` call, which also inspects `el` itself, agrees
with the spec's ancestor-only reading because the self case is
dispatched by the first clause. -/
theorem linkEval_matches_spec_order (el : Node) (ancestors : List Node) :
    linkEval el ancestors = linkSpecOrder el ancestors := by
  unfold linkEval linkSpecOrder closestAnchor
  by_cases h : el.tag = "A"
  · simp [h]
  · simp only [h, if_false]
    cases ancestors.find? (fun a => a.tag = "A") with
    | none =>
      cases firstAnchorIn el.children <;> simp
    | some a => simp

/-- C9: the items a scrape produces never include an item with empty
trimmed text; every recorded item's text is the nonempty stripped
inner text of one of the matched elements, with the link resolved by
the evaluated script. -/
theorem scrapeItems_text_nonempty (els : List ScrapeEl) (item : ScrapedItem)
    (h : item ∈ scrapeItems els) :
    item.text ≠ "" ∧
      ∃ e, e ∈ els ∧ item.text = pyStrip e.innerText ∧
        item.link = linkEval e.el e.ancestors := by
  induction els with
  | nil => simp [scrapeItems] at h
  | cons e rest ih =>
    simp only [scrapeItems] at h
    split at h
    · rename_i ht
      rcases List.mem_cons.mp h with heq | hmem
      · subst heq
        exact ⟨ht, e, List.mem_cons_self e rest, rfl, rfl⟩
      · obtain ⟨hne, e2, he2, htext, hlink⟩ := ih hmem
        exact ⟨hne, e2, List.mem_cons_of_mem e he2, htext, hlink⟩
    · obtain ⟨hne, e2, he2, htext, hlink⟩ := ih h
      exact ⟨hne, e2, List.mem_cons_of_mem e he2, htext, hlink⟩

/-- Concrete instance of `scrapeItems_text_nonempty`: a single div
with inner text `" hi "` and no surrounding or contained anchors
yields the item `{text := "hi", link := none}`. -/
theorem scrapeItems_text_nonempty_witness :
    ({ text := "hi", link := none } : ScrapedItem).text ≠ "" ∧
      ∃ e, e ∈ [ScrapeEl.mk (Node.mk "DIV" "" []) [] " hi "] ∧
        ({ text := "hi", link := none } : ScrapedItem).text = pyStrip e.innerText ∧
        ({ text := "hi", link := none } : ScrapedItem).link = linkEval e.el e.ancestors :=
  scrapeItems_text_nonempty [ScrapeEl.mk (Node.mk "DIV" "" []) [] " hi "]
    { text := "hi", link := none }
    (by simp [scrapeItems, linkEval, closestAnchor, firstAnchorIn, Node.tag, Node.children, pyStrip])

/-! ## Lemmas about the control loop -/

/-- Loop invariant for the step budget: starting the loop at index
`start` with `fuel` remaining iterations, at most `fuel` iterations
begin, and every iteration index lies in `[start, start + fuel)`. -/
theorem runLoop_steps_bounded (envs : Nat → StepEnv) :
    ∀ (fuel start : Nat) (s : AgentState),
      (runLoop envs fuel start s).steps.length ≤ fuel ∧
        ∀ i ∈ (runLoop envs fuel start s).steps, start ≤ i ∧ i < start + fuel := by
  intro fuel
  induction fuel with
  | zero =>
    intro start s
    simp [runLoop]
  | succ n ih =>
    intro start s
    simp only [runLoop]
    split
    · constructor
      · simp only [List.length_cons]
        have := (ih (start + 1) (runStep start (envs start) s).state).1
        omega
      · intro i hi
        rcases List.mem_cons.mp hi with rfl | hm
        · omega
        · have := (ih (start + 1) (runStep start (envs start) s).state).2 i hm
          omega
    · refine ⟨by simp, ?_⟩
      intro i hi
      simp only [List.mem_singleton] at hi
      omega
    · refine ⟨by simp, ?_⟩
      intro i hi
      simp only [List.mem_singleton] at hi
      omega
    · refine ⟨by simp, ?_⟩
      intro i hi
      simp only [List.mem_singleton] at hi
      omega

/-- C1: the step counter never exceeds `maxSteps` and the loop
terminates within `maxSteps` iterations, for every environment — in
particular for environments in which every plan the planner returns is
a non-terminal action: at most `maxSteps` iterations begin and every
iteration's step index is below `maxSteps`. -/
theorem run_within_maxSteps (maxSteps : Nat) (envs : Nat → StepEnv) :
    (run maxSteps envs).steps.length ≤ maxSteps ∧
      (run maxSteps envs).steps.all (fun i => i < maxSteps) = true := by
  have h := runLoop_steps_bounded envs maxSteps 0 { history := [], collectedData := [] }
  unfold run
  refine ⟨h.1, ?_⟩
  simp only [List.all_eq_true, decide_eq_true_eq]
  intro i hi
  have := h.2 i hi
  omega

/-- C2: when the reasoning-service call throws or its response fails
to parse, `get_next_action` returns exactly the degraded plan
`{action: finish, thought: "API call failed."}` instead of raising,
and the control loop terminates on that same step: the failing step is
the only iteration the remaining loop runs and the exit is the finish
`break`. -/
theorem planner_failure_degrades_and_finishes
    (envs : Nat → StepEnv) (fuel step : Nat) (s : AgentState) (e : String)
    (hobs : (envs step).observeOk = true)
    (herr : (envs step).planResult = Except.error e) :
    get_next_action (envs step).planResult = degradedPlan ∧
      (runLoop envs (fuel + 1) step s).exit = ExitKind.finished ∧
      (runLoop envs (fuel + 1) step s).steps = [step] := by
  have hplan : get_next_action (envs step).planResult = degradedPlan := by
    rw [herr]
    rfl
  have hstep : (runStep step (envs step) s).outcome = StepOutcome.breakFinished := by
    simp [runStep, hobs, hplan, degradedPlan]
  exact ⟨hplan, by simp [runLoop, hstep], by simp [runLoop, hstep]⟩

/-- Concrete instance of `planner_failure_degrades_and_finishes`: a
reasoning call that raises `"boom"` on step 0 of a 3-step budget. -/
theorem planner_failure_degrades_and_finishes_witness :
    get_next_action (Except.error "boom" : Except String Plan) = degradedPlan ∧
      (runLoop
        (fun _ => { observeOk := true, planResult := Except.error "boom",
                    actOk := true, errText := "", elements := [] })
        3 0 { history := [], collectedData := [] }).exit = ExitKind.finished ∧
      (runLoop
        (fun _ => { observeOk := true, planResult := Except.error "boom",
                    actOk := true, errText := "", elements := [] })
        3 0 { history := [], collectedData := [] }).steps = [0] :=
  planner_failure_degrades_and_finishes
    (fun _ => { observeOk := true, planResult := Except.error "boom",
                actOk := true, errText := "", elements := [] })
    2 0 { history := [], collectedData := [] } "boom" rfl rfl

/-- C3 counterexample: a plan with no `action` key is not logged and
skipped.  With a budget of 2 steps and the planner producing the
action-less plan each time, the claim would have the loop treat step 0
as a no-op and go on to step 1; instead the run ends at step 0 by the
uncaught `AttributeError` that `action.upper()` raises on `None`, so
step 0 is the only iteration and the exit is the crash, not step
exhaustion. -/
theorem missing_action_not_skipped :
    (run 2 (fun _ =>
      { observeOk := true,
        planResult := Except.ok { thought := none, action := none, selector := none, value := none },
        actOk := true, errText := "", elements := [] })).exit = ExitKind.crashed ∧
      (run 2 (fun _ =>
        { observeOk := true,
          planResult := Except.ok { thought := none, action := none, selector := none, value := none },
          actOk := true, errText := "", elements := [] })).steps = [0] := by
  constructor <;> rfl

/-- C3 (amended): a plan whose `action` is a string outside
{type, click, scrape, finish} performs no page mutation, leaves the
session state (history included) unchanged and is skipped, the loop
falling through to the next iteration; a plan with a missing or null
`action` also performs no page mutation and leaves the session state
unchanged, but is not skipped: the step raises before the executor
dispatch and the run ends. -/
theorem unknown_action_noop (step : Nat) (env : StepEnv) (s : AgentState)
    (hobs : env.observeOk = true) :
    (∀ a, (get_next_action env.planResult).action = some a →
      a ≠ "type" → a ≠ "click" → a ≠ "scrape" → a ≠ "finish" →
        (runStep step env s).state = s ∧ (runStep step env s).effects = [] ∧
          (runStep step env s).outcome = StepOutcome.next) ∧
      ((get_next_action env.planResult).action = none →
        (runStep step env s).state = s ∧ (runStep step env s).effects = [] ∧
          (runStep step env s).outcome = StepOutcome.crash) := by
  constructor
  · intro a hact h1 h2 h3 h4
    refine ⟨?_, ?_, ?_⟩ <;> simp [runStep, hobs, hact, h1, h2, h3, h4]
  · intro hact
    refine ⟨?_, ?_, ?_⟩ <;> simp [runStep, hobs, hact]

/-- Concrete instances of `unknown_action_noop`: the unrecognized
string action `"hover"` leaves the state untouched and falls through,
while the action-less plan leaves the state untouched and crashes. -/
theorem unknown_action_noop_witness :
    ((runStep 0
      { observeOk := true,
        planResult := Except.ok { thought := none, action := some "hover", selector := none, value := none },
        actOk := true, errText := "", elements := [] }
      { history := [], collectedData := [] }).state = { history := [], collectedData := [] } ∧
      (runStep 0
        { observeOk := true,
          planResult := Except.ok { thought := none, action := some "hover", selector := none, value := none },
          actOk := true, errText := "", elements := [] }
        { history := [], collectedData := [] }).effects = [] ∧
      (runStep 0
        { observeOk := true,
          planResult := Except.ok { thought := none, action := some "hover", selector := none, value := none },
          actOk := true, errText := "", elements := [] }
        { history := [], collectedData := [] }).outcome = StepOutcome.next) ∧
      (runStep 0
        { observeOk := true,
          planResult := Except.ok { thought := none, action := none, selector := none, value := none },
          actOk := true, errText := "", elements := [] }
        { history := [], collectedData := [] }).outcome = StepOutcome.crash :=
  ⟨(unknown_action_noop 0
      { observeOk := true,
        planResult := Except.ok { thought := none, action := some "hover", selector := none, value := none },
        actOk := true, errText := "", elements := [] }
      { history := [], collectedData := [] } rfl).1 "hover" rfl
      (by decide) (by decide) (by decide) (by decide),
    ((unknown_action_noop 0
      { observeOk := true,
        planResult := Except.ok { thought := none, action := none, selector := none, value := none },
        actOk := true, errText := "", elements := [] }
      { history := [], collectedData := [] } rfl).2 rfl).2.2⟩

/-- C4 counterexample: history can grow by two entries in a single
step.  A one-step run whose only action is a scrape matching zero
elements (without the finish signal) appends both the outcome entry
`Scraped data from .result` and the zero-item warning entry, so one
iteration grows the history from 0 to 2 entries. -/
theorem history_two_entries_one_step :
    (run 1 (fun _ =>
      { observeOk := true,
        planResult := Except.ok
          { thought := none, action := some "scrape", selector := some ".result", value := none },
        actOk := true, errText := "", elements := [] })).steps.length = 1 ∧
      (run 1 (fun _ =>
        { observeOk := true,
          planResult := Except.ok
            { thought := none, action := some "scrape", selector := some ".result", value := none },
          actOk := true, errText := "", elements := [] })).state.history.length = 2 := by
  constructor <;> rfl

/-- C4 (amended): per step of the control loop, history grows
append-only by at most two entries, and the only step that appends two
is a scrape that produced zero items without the finish signal: in
every other case — a finish-valued zero-item scrape included — at most
one entry is appended. -/
theorem history_grows_at_most_two (step : Nat) (env : StepEnv) (s : AgentState) :
    ∃ added, (runStep step env s).state.history = s.history ++ added ∧
      added.length ≤ 2 ∧
      (added.length = 2 →
        (get_next_action env.planResult).action = some "scrape" ∧
          scrapeItems env.elements = [] ∧
          (get_next_action env.planResult).value ≠ some "finish") := by
  by_cases hobs : env.observeOk = false
  · exact ⟨[], by simp [runStep, hobs], by simp, by simp⟩
  · cases hact : (get_next_action env.planResult).action with
    | none => exact ⟨[], by simp [runStep, hobs, hact], by simp, by simp⟩
    | some a =>
      by_cases h1 : a = "type"
      · by_cases hok : env.actOk = true
        · exact ⟨[typedMsg (get_next_action env.planResult).value (get_next_action env.planResult).selector],
            by simp [runStep, hobs, hact, h1, hok], by simp, by simp⟩
        · exact ⟨[failMsg a (get_next_action env.planResult).selector env.errText],
            by simp [runStep, hobs, hact, h1, hok], by simp, by simp⟩
      · by_cases h2 : a = "click"
        · by_cases hok : env.actOk = true
          · exact ⟨[clickedMsg (get_next_action env.planResult).selector],
              by simp [runStep, hobs, hact, h1, h2, hok], by simp, by simp⟩
          · exact ⟨[failMsg a (get_next_action env.planResult).selector env.errText],
              by simp [runStep, hobs, hact, h1, h2, hok], by simp, by simp⟩
        · by_cases h3 : a = "scrape"
          · by_cases hok : env.actOk = true
            · by_cases hval : (get_next_action env.planResult).value = some "finish"
              · exact ⟨[scrapedMsg (get_next_action env.planResult).selector],
                  by simp [runStep, hobs, hact, h1, h2, h3, hok, hval], by simp, by simp⟩
              · by_cases hdata : (scrapeItems env.elements).length = 0
                · refine ⟨[scrapedMsg (get_next_action env.planResult).selector,
                      warnMsg (get_next_action env.planResult).selector], ?_, by simp, ?_⟩
                  · simp [runStep, hobs, hact, h1, h2, h3, hok, hval, hdata]
                  · intro _
                    refine ⟨?_, List.length_eq_zero.mp hdata, hval⟩
                    rw [h3]

                · exact ⟨[scrapedMsg (get_next_action env.planResult).selector],
                    by simp [runStep, hobs, hact, h1, h2, h3, hok, hval, hdata], by simp, by simp⟩
            · exact ⟨[failMsg a (get_next_action env.planResult).selector env.errText],
                by simp [runStep, hobs, hact, h1, h2, h3, hok], by simp, by simp⟩
          · by_cases h4 : a = "finish"
            · exact ⟨[], by simp [runStep, hobs, hact, h1, h2, h3, h4], by simp, by simp⟩
            · exact ⟨[], by simp [runStep, hobs, hact, h1, h2, h3, h4], by simp, by simp⟩

/-- C5: a scrape whose selector matches zero elements (without the
finish signal) appends a record with an empty item list to
`collectedData`, appends the outcome entry and the
try-a-different-selector warning entry to history, and does not
terminate the loop: the step falls through to the next iteration. -/
theorem zero_item_scrape_warns_and_continues
    (step : Nat) (env : StepEnv) (s : AgentState)
    (hobs : env.observeOk = true)
    (hact : (get_next_action env.planResult).action = some "scrape")
    (hok : env.actOk = true)
    (hel : env.elements = [])
    (hval : (get_next_action env.planResult).value ≠ some "finish") :
    (runStep step env s).state.collectedData =
        s.collectedData ++ [{ step := step, data := [] }] ∧
      (runStep step env s).state.history =
        s.history ++ [scrapedMsg (get_next_action env.planResult).selector,
          warnMsg (get_next_action env.planResult).selector] ∧
      (runStep step env s).outcome = StepOutcome.next := by
  refine ⟨?_, ?_, ?_⟩ <;>
    simp [runStep, hobs, hact, hok, hel, hval, scrapeItems]

/-- Concrete instance of `zero_item_scrape_warns_and_continues`: a
scrape of `.result` matching nothing on step 0. -/
theorem zero_item_scrape_warns_and_continues_witness :
    (runStep 0
      { observeOk := true,
        planResult := Except.ok
          { thought := none, action := some "scrape", selector := some ".result", value := none },
        actOk := true, errText := "", elements := [] }
      { history := [], collectedData := [] }).state.collectedData =
        [] ++ [{ step := 0, data := [] }] ∧
      (runStep 0
        { observeOk := true,
          planResult := Except.ok
            { thought := none, action := some "scrape", selector := some ".result", value := none },
          actOk := true, errText := "", elements := [] }
        { history := [], collectedData := [] }).state.history =
        [] ++ [scrapedMsg (some ".result"), warnMsg (some ".result")] ∧
      (runStep 0
        { observeOk := true,
          planResult := Except.ok
            { thought := none, action := some "scrape", selector := some ".result", value := none },
          actOk := true, errText := "", elements := [] }
        { history := [], collectedData := [] }).outcome = StepOutcome.next :=
  zero_item_scrape_warns_and_continues 0
    { observeOk := true,
      planResult := Except.ok
        { thought := none, action := some "scrape", selector := some ".result", value := none },
      actOk := true, errText := "", elements := [] }
    { history := [], collectedData := [] } rfl rfl rfl rfl (by decide)

/-- C6: a scrape whose plan `value` is the literal string `"finish"`
terminates the control loop on that step, and only after the scraped
record has been appended to `collectedData`: the final state of the
run already holds the record when the finish `break` fires. -/
theorem scrape_finish_terminates
    (envs : Nat → StepEnv) (fuel step : Nat) (s : AgentState)
    (hobs : (envs step).observeOk = true)
    (hact : (get_next_action (envs step).planResult).action = some "scrape")
    (hok : (envs step).actOk = true)
    (hval : (get_next_action (envs step).planResult).value = some "finish") :
    (runLoop envs (fuel + 1) step s).exit = ExitKind.finished ∧
      (runLoop envs (fuel + 1) step s).steps = [step] ∧
      (runLoop envs (fuel + 1) step s).state.collectedData =
        s.collectedData ++ [{ step := step, data := scrapeItems (envs step).elements }] := by
  have hout : (runStep step (envs step) s).outcome = StepOutcome.breakFinished := by
    simp [runStep, hobs, hact, hok, hval]
  have hdata : (runStep step (envs step) s).state.collectedData =
      s.collectedData ++ [{ step := step, data := scrapeItems (envs step).elements }] := by
    simp [runStep, hobs, hact, hok, hval]
  exact ⟨by simp [runLoop, hout], by simp [runLoop, hout], by simp [runLoop, hout, hdata]⟩

/-- Concrete instance of `scrape_finish_terminates`: a scrape of
`.result` carrying the `"finish"` value on step 0 of a 5-step
budget. -/
theorem scrape_finish_terminates_witness :
    (runLoop
      (fun _ =>
        { observeOk := true,
          planResult := Except.ok
            { thought := none, action := some "scrape", selector := some ".result",
              value := some "finish" },
          actOk := true, errText := "", elements := [] })
      5 0 { history := [], collectedData := [] }).exit = ExitKind.finished ∧
      (runLoop
        (fun _ =>
          { observeOk := true,
            planResult := Except.ok
              { thought := none, action := some "scrape", selector := some ".result",
                value := some "finish" },
            actOk := true, errText := "", elements := [] })
        5 0 { history := [], collectedData := [] }).steps = [0] ∧
      (runLoop
        (fun _ =>
          { observeOk := true,
            planResult := Except.ok
              { thought := none, action := some "scrape", selector := some ".result",
                value := some "finish" },
            actOk := true, errText := "", elements := [] })
        5 0 { history := [], collectedData := [] }).state.collectedData =
        [] ++ [{ step := 0, data := scrapeItems [] }] :=
  scrape_finish_terminates
    (fun _ =>
      { observeOk := true,
        planResult := Except.ok
          { thought := none, action := some "scrape", selector := some ".result",
            value := some "finish" },
        actOk := true, errText := "", elements := [] })
    4 0 { history := [], collectedData := [] } rfl rfl rfl rfl

/-- C7: a scrape matching zero elements whose plan `value` is
`"finish"` terminates the loop after appending the empty
`collectedData` record and the scrape outcome history entry, and the
zero-item warning entry is never appended: the finish check precedes
the zero-item check, so history gains exactly the one outcome
entry. -/
theorem scrape_finish_zero_items_no_warning
    (step : Nat) (env : StepEnv) (s : AgentState)
    (hobs : env.observeOk = true)
    (hact : (get_next_action env.planResult).action = some "scrape")
    (hok : env.actOk = true)
    (hel : env.elements = [])
    (hval : (get_next_action env.planResult).value = some "finish") :
    (runStep step env s).outcome = StepOutcome.breakFinished ∧
      (runStep step env s).state.collectedData =
        s.collectedData ++ [{ step := step, data := [] }] ∧
      (runStep step env s).state.history =
        s.history ++ [scrapedMsg (get_next_action env.planResult).selector] := by
  refine ⟨?_, ?_, ?_⟩ <;>
    simp [runStep, hobs, hact, hok, hel, hval, scrapeItems]

/-- Concrete instance of `scrape_finish_zero_items_no_warning`: a
zero-match scrape of `.result` carrying the `"finish"` value on
step 0. -/
theorem scrape_finish_zero_items_no_warning_witness :
    (runStep 0
      { observeOk := true,
        planResult := Except.ok
          { thought := none, action := some "scrape", selector := some ".result",
            value := some "finish" },
        actOk := true, errText := "", elements := [] }
      { history := [], collectedData := [] }).outcome = StepOutcome.breakFinished ∧
      (runStep 0
        { observeOk := true,
          planResult := Except.ok
            { thought := none, action := some "scrape", selector := some ".result",
              value := some "finish" },
          actOk := true, errText := "", elements := [] }
        { history := [], collectedData := [] }).state.collectedData =
        [] ++ [{ step := 0, data := [] }] ∧
      (runStep 0
        { observeOk := true,
          planResult := Except.ok
            { thought := none, action := some "scrape", selector := some ".result",
              value := some "finish" },
          actOk := true, errText := "", elements := [] }
        { history := [], collectedData := [] }).state.history =
        [] ++ [scrapedMsg (some ".result")] :=
  scrape_finish_zero_items_no_warning 0
    { observeOk := true,
      planResult := Except.ok
        { thought := none, action := some "scrape", selector := some ".result",
          value := some "finish" },
      actOk := true, errText := "", elements := [] }
    { history := [], collectedData := [] } rfl rfl rfl rfl rfl

end WebAgentModel
